import Mathlib

/-!
Verification of the adversaRL curriculum/stream components.

Shallow embedding of the Python sources of the `adversaRL` repository:

* `adversarl/curriculum/failure_detector.py` (`FailureDetector`)
* `adversarl/curriculum/llm_judge.py` (`LLMJudge.evaluate_performance`)
* `adversarl/training/train.py` (`CurriculumCallback._on_step`)
* `adversarl/envs/odyssey_env.py` (frame queue in `OdysseyEnv._on_frame`)
* `adversarl/envs/odyssey_client.py` / `odyssey_mock.py` (`interact`)

Python floats are modelled as rationals (`ℚ`), Python `deque(maxlen=n)`
as a list that drops its oldest entries past capacity, Python `dict`
counters as total functions with default `0`, and fallible operations as
`Option`/sum-like result types.
-/

namespace AdversaRL

/-! ## String helpers

Python's `needle in hay` substring test and `str.lower`, modelled over
character lists (ASCII lowering, as in the repository's inputs). -/

/-- `listPre n h` is true iff `n` is an initial segment of `h`. -/
def listPre : List Char → List Char → Bool
  | [], _ => true
  | _ :: _, [] => false
  | a :: as, b :: bs => a == b && listPre as bs

/-- `listSub n h` is true iff `n` occurs contiguously inside `h`
(Python's `n in h` on strings). -/
def listSub (n : List Char) : List Char → Bool
  | [] => listPre n []
  | h :: t => listPre n (h :: t) || listSub n t

/-- Python `needle in hay` for strings. -/
def strIn (needle hay : String) : Bool :=
  listSub needle.data hay.data

/-- ASCII lowering of one character (as Python `str.lower` acts on the
repository's ASCII labels). -/
def lowerChar (c : Char) : Char :=
  if 'A' ≤ c && c ≤ 'Z' then Char.ofNat (c.toNat + 32) else c

/-- Python `s.lower()`. -/
def pyLower (s : String) : String :=
  ⟨s.data.map lowerChar⟩

/-- Python truthiness of an optional string: `None` and `""` are falsy. -/
def condTruthy : Option String → Bool
  | none => false
  | some s => !(s == "")

/-! ## FailureDetector (`curriculum/failure_detector.py`) -/

/-- One rolling-window append, mirroring `collections.deque(maxlen := n)`:
the new element goes to the right, and anything past capacity falls off
the left. -/
def pushWindow (n : Nat) (xs : List α) (x : α) : List α :=
  (xs ++ [x]).drop (xs.length + 1 - n)

/-- State of `FailureDetector`.  `failure_counts` models the Python dict
`{cat: 0 for cat in categories}` as a total function (keys the code never
touches stay at `0`). -/
structure FailureDetector where
  window_size : Nat
  min_success_rate : ℚ
  categories : List String
  episode_rewards : List ℚ
  episode_successes : List Bool
  episode_lengths : List Nat
  failure_counts : String → Nat
  current_conditions : String

/-- Default failure categories (`failure_detector.py` line 32). -/
def defaultCategories : List String :=
  ["lighting", "occlusion", "visual", "distraction"]

/-- `FailureDetector.__init__`.  `categories or [...]` in Python treats
both `None` and the empty list as falsy. -/
def initFailureDetector (window_size : Nat) (min_success_rate : ℚ)
    (categories : Option (List String)) : FailureDetector :=
  { window_size := window_size
    min_success_rate := min_success_rate
    categories :=
      match categories with
      | some (c :: cs) => c :: cs
      | _ => defaultCategories
    episode_rewards := []
    episode_successes := []
    episode_lengths := []
    failure_counts := fun _ => 0
    current_conditions := "neutral" }

/-- The category-tally loop of `record_episode`: for every configured
category (in order), bump its count when the category string occurs
verbatim inside the (already lowercased) condition label. -/
def bumpMatching (cats : List String) (lowered : String)
    (counts : String → Nat) : String → Nat :=
  cats.foldl
    (fun acc cat =>
      if strIn cat lowered then
        (fun c => if c == cat then acc c + 1 else acc c)
      else acc)
    counts

/-- `FailureDetector.record_episode` (lines 43-71). -/
def recordEpisode (d : FailureDetector) (reward : ℚ) (success : Bool)
    (length : Nat) (conditions : Option String) : FailureDetector :=
  { d with
    episode_rewards := pushWindow d.window_size d.episode_rewards reward
    episode_successes := pushWindow d.window_size d.episode_successes success
    episode_lengths := pushWindow d.window_size d.episode_lengths length
    current_conditions :=
      if condTruthy conditions then conditions.getD d.current_conditions
      else d.current_conditions
    failure_counts :=
      if !success && condTruthy conditions then
        bumpMatching d.categories (pyLower (conditions.getD "")) d.failure_counts
      else d.failure_counts }

/-- Number of `True` entries (Python `sum` over a deque of bools). -/
def countTrue (xs : List Bool) : Nat := xs.countP (fun b => b)

/-- `FailureDetector.get_success_rate` (lines 73-77). -/
def get_success_rate (d : FailureDetector) : ℚ :=
  if d.episode_successes.isEmpty then 0
  else (countTrue d.episode_successes : ℚ) / (d.episode_successes.length : ℚ)

/-- `FailureDetector.should_adapt` (lines 85-91). -/
def should_adapt (d : FailureDetector) : Bool :=
  if d.episode_successes.length < d.window_size / 2 then false
  else decide (get_success_rate d < d.min_success_rate)

/-- `FailureDetector.reset_statistics` (lines 112-117). -/
def resetStatistics (d : FailureDetector) : FailureDetector :=
  { d with
    episode_rewards := []
    episode_successes := []
    episode_lengths := []
    failure_counts := fun _ => 0 }

/-- `n` consecutive failing episodes (reward `0`, `success := False`,
length `1`, no condition label). -/
def recordFailures : Nat → FailureDetector → FailureDetector
  | 0, d => d
  | n + 1, d => recordFailures n (recordEpisode d 0 false 1 none)

/-! ## LLMJudge (`curriculum/llm_judge.py`)

`evaluate_performance` builds a prompt, calls the judgment service and
parses the reply with `json.loads`.  The service call and the textual
JSON decoding are outside the repository; their outcome is modelled as
an `Option JsonVal`: `none` when the call or `json.loads` raises, and
`some v` for the decoded JSON value (markdown-fence stripping happens at
the text level, before decoding, and is absorbed into this outcome). -/

/-- A decoded JSON value.  `jnull` is Python `None`. -/
inductive JsonVal where
  | jnull
  | jbool (b : Bool)
  | jnum (q : ℚ)
  | jstr (s : String)
  | jarr (items : List JsonVal)
  | jobj (fields : List (String × JsonVal))

/-- Lookup in a decoded JSON object; on duplicate keys `json.loads`
keeps the last occurrence. -/
def jGet (fields : List (String × JsonVal)) (k : String) : Option JsonVal :=
  (fields.reverse.find? (fun p => p.1 == k)).map (fun p => p.2)

/-- Python `result.get(k)` (default `None`): both a missing key and a
stored JSON `null` come back as Python `None`. -/
def pyGetOpt (fields : List (String × JsonVal)) (k : String) : Option JsonVal :=
  match jGet fields k with
  | none => none
  | some .jnull => none
  | some v => some v

/-- Python `result.get(k, dflt)`: the default fills in only for a
missing key; a stored JSON `null` is Python `None`. -/
def pyGetD (fields : List (String × JsonVal)) (k : String) (dflt : JsonVal) :
    Option JsonVal :=
  match jGet fields k with
  | none => some dflt
  | some .jnull => none
  | some v => some v

/-- The raw value of `result.get("difficulty_adjustment", 0)`. -/
def getAdjustRaw (fields : List (String × JsonVal)) : JsonVal :=
  match jGet fields "difficulty_adjustment" with
  | none => .jnum 0
  | some v => v

/-- Values Python can add to a float: numbers, and bools (which coerce
to 0/1).  Anything else makes `self.difficulty + ...` raise `TypeError`. -/
def asAddable : JsonVal → Option ℚ
  | .jnum q => some q
  | .jbool b => some (if b then 1 else 0)
  | _ => none

/-- `JudgmentResult` (llm_judge.py lines 14-22).  Fields hold the raw
values the code stores (`Option JsonVal`, `none` = Python `None`); the
wall-clock `timestamp` carries no information and is omitted. -/
structure JudgmentResult where
  observation : Option JsonVal
  failure_mode : Option JsonVal
  reasoning : Option JsonVal
  curriculum_prompt : Option JsonVal
  difficulty_level : ℚ

/-- The mutable state of `LLMJudge` that `evaluate_performance` touches:
the difficulty scalar and the append-only judgment history. -/
structure JudgeState where
  difficulty : ℚ
  evaluation_history : List JudgmentResult

/-- `LLMJudge.__init__`: `self.difficulty = 0.3`, empty history. -/
def judgeInit : JudgeState :=
  { difficulty := 3/10, evaluation_history := [] }

/-- The clamp on line 168: `max(0.1, min(1.0, x))`. -/
def clampDifficulty (x : ℚ) : ℚ := max (1/10) (min 1 x)

/-- The fallback `JudgmentResult` built in the `except` block
(lines 190-197).  `reasoning` is `str(e)`, the exception text, which the
model abstracts to the empty string (no claim depends on it). -/
def fallbackResult (d : ℚ) : JudgmentResult :=
  { observation := some (.jstr "Unable to evaluate - LLM error occurred")
    failure_mode := some (.jstr "llm_evaluation_error")
    reasoning := some (.jstr "")
    curriculum_prompt := none
    difficulty_level := d }

/-- `LLMJudge.evaluate_performance` (lines 131-197), from the decoded
reply onwards.  The three failure branches mirror the three ways the
`try` block can raise before `self.difficulty` is assigned: the service
call / `json.loads` raising (`reply = none`), `result.get` raising
`AttributeError` on a non-dict (`some v`, `v` not an object), and
`self.difficulty + ...` raising `TypeError` on a non-numeric adjustment.
Assignments after line 170 cannot raise, so the fallback always carries
the pre-call difficulty and leaves the state untouched. -/
def evaluate_performance (st : JudgeState) (reply : Option JsonVal) :
    JudgeState × JudgmentResult :=
  match reply with
  | some (.jobj fields) =>
    match asAddable (getAdjustRaw fields) with
    | some delta =>
      let d := clampDifficulty (st.difficulty + delta)
      let res : JudgmentResult :=
        { observation := pyGetD fields "observation" (.jstr "")
          failure_mode := pyGetOpt fields "failure_mode"
          reasoning := pyGetD fields "reasoning" (.jstr "")
          curriculum_prompt := pyGetOpt fields "curriculum_prompt"
          difficulty_level := d }
      ({ difficulty := d, evaluation_history := st.evaluation_history ++ [res] },
        res)
    | none => (st, fallbackResult st.difficulty)
  | _ => (st, fallbackResult st.difficulty)

/-- The condition under which the `try` block of `evaluate_performance`
raises (and the `except` fallback runs). -/
def parseFails (reply : Option JsonVal) : Bool :=
  match reply with
  | some (.jobj fields) => (asAddable (getAdjustRaw fields)).isNone
  | _ => true

/-- Fold a sequence of judgment calls over the judge state. -/
def runJudge (st : JudgeState) (replies : List (Option JsonVal)) : JudgeState :=
  replies.foldl (fun s r => (evaluate_performance s r).1) st

/-- Modelled from the spec (claim C5 comparison): the delta-acceptance
step the spec describes, restricting a raw delta to `[-0.1, 0.1]`.  No
such step exists in `llm_judge.py`; this definition follows the spec's
words so the code's update can be compared against it. -/
def specDeltaClamped (x : ℚ) : ℚ := max (-(1/10)) (min (1/10) x)

/-- Modelled from the spec (claim C5 comparison): the difficulty update
the spec describes, `clamp(d + clampDelta(x), 0.1, 1.0)`. -/
def specNewDifficulty (d x : ℚ) : ℚ := clampDifficulty (d + specDeltaClamped x)

/-! ## CurriculumCallback (`training/train.py`)

The episode-boundary branch of `_on_step` (lines 54-79): record the
finished episode in the detector, then adapt when
`len(self.failure_detector.episode_successes) % self.adaptation_frequency == 0`
and `should_adapt()` holds.  `_adapt_curriculum` (lines 83-108) wraps the
controller call in `try/except`: its outcome is modelled as an
`Option String` (`none` = the controller raised; the error is printed and
swallowed, so `env.current_conditions` stays as it was). -/

structure CallbackState where
  detector : FailureDetector
  adaptation_frequency : Nat
  env_conditions : String

/-- One completed episode as `_on_step` processes it.  The recorded
condition label is `getattr(self.env, "current_conditions", "neutral")`,
i.e. the callback state's `env_conditions`.  Returns the new state and
whether the controller was invoked this episode. -/
def onEpisodeEnd (cs : CallbackState) (reward : ℚ) (success : Bool)
    (length : Nat) (perturbation : Option String) : CallbackState × Bool :=
  let det := recordEpisode cs.detector reward success length (some cs.env_conditions)
  let adapt := (det.episode_successes.length % cs.adaptation_frequency == 0)
      && should_adapt det
  let conds :=
    if adapt then
      match perturbation with
      | some p => p          -- self.env.current_conditions = perturbation
      | none => cs.env_conditions  -- controller raised: logged, skipped
    else cs.env_conditions
  ({ detector := det
     adaptation_frequency := cs.adaptation_frequency
     env_conditions := conds },
    adapt)

/-- An episode stream where every episode fails (reward 0, length 1) and
no perturbation is produced, advancing only the state. -/
def advanceFail (cs : CallbackState) : CallbackState :=
  (onEpisodeEnd cs 0 false 1 none).1

/-- Callback over a detector with `window_size = 4` and
`min_success_rate = 0.3`, with `adaptation_frequency = 2`. -/
def smallCallback : CallbackState :=
  { detector := initFailureDetector 4 (3/10) none
    adaptation_frequency := 2
    env_conditions := "neutral" }

/-! ## Frame buffer (`envs/odyssey_env.py`)

`OdysseyEnv._on_frame` pushes into `queue.Queue(maxsize := capacity)`
with `put_nowait`; on `queue.Full` it pops one entry with `get_nowait`
and retries the put, and the inner `except: pass` swallows any residual
failure.  Modelled sequentially (the buffer claims are about the push
policy, not thread interleavings): the queue is a list, oldest first. -/

/-- One producer push.  Returns the new queue and the number of evicted
frames (0 or 1).  Python `Queue(maxsize ≤ 0)` is unbounded, hence the
`cap == 0` disjunct; the `[]` branch of a full nonempty-capacity queue is
unreachable, and the final branch is the inner `except: pass` dropping
the new frame after one eviction. -/
def pushFrame (cap : Nat) (q : List α) (x : α) : List α × Nat :=
  if cap = 0 ∨ q.length < cap then (q ++ [x], 0)
  else
    match q with
    | [] => (q, 0)
    | _ :: t => if t.length < cap then (t ++ [x], 1) else (t, 1)

/-- Push a whole sequence of frames, accumulating evictions. -/
def pushFrames (cap : Nat) (st : List α × Nat) (frames : List α) : List α × Nat :=
  frames.foldl (fun p x => let r := pushFrame cap p.1 x; (r.1, p.2 + r.2)) st

/-! ## interact (`envs/odyssey_client.py` and `envs/odyssey_mock.py`) -/

/-- Observable outcome of `OdysseyClient.interact`: either the raised
error (nothing is sent), or the JSON payload written to the websocket. -/
inductive InteractOutcome where
  | raised (msg : String)
  | sent (msgType : String) (prompt : String) (stream_id : String)

/-- `OdysseyClient.interact` (lines 188-204): `if not self.current_stream_id`
(falsy: `None` or `""`) raise `RuntimeError("No active stream to interact
with")` before anything is sent; otherwise send the interact payload. -/
def clientInteract (current_stream_id : Option String) (prompt : String) :
    InteractOutcome :=
  if condTruthy current_stream_id then
    .sent "interact" prompt (current_stream_id.getD "")
  else .raised "No active stream to interact with"

/-- Simulation state of `MockOdysseyClient` that `interact` reads or
writes, plus the stream id it never consults. -/
structure MockState where
  current_stream_id : Option String
  arm_x : ℚ
  arm_y : ℚ
  object_x : ℚ
  object_y : ℚ
  gripper_open : Bool
  lighting : String

/-- `MockOdysseyClient.__init__` simulation state (no stream started). -/
def mockInit : MockState :=
  { current_stream_id := none
    arm_x := 320
    arm_y := 400
    object_x := 400
    object_y := 450
    gripper_open := true
    lighting := "neutral" }

/-- Movement block of `MockOdysseyClient.interact` (lines 226-249). -/
def moveStep (st : MockState) (p : String) : MockState :=
  if strIn "forward" p || strIn "towards" p then
    { st with arm_x := st.arm_x + (st.object_x - st.arm_x) * (1/10)
              arm_y := st.arm_y + (st.object_y - st.arm_y) * (1/10) }
  else if strIn "backward" p || strIn "away" p then
    { st with arm_x := st.arm_x - (st.object_x - st.arm_x) * (1/10)
              arm_y := st.arm_y - (st.object_y - st.arm_y) * (1/10) }
  else if strIn "left" p then { st with arm_x := st.arm_x - 20 }
  else if strIn "right" p then { st with arm_x := st.arm_x + 20 }
  else if strIn "up" p then { st with arm_y := st.arm_y - 20 }
  else if strIn "down" p then { st with arm_y := st.arm_y + 20 }
  else st

/-- Gripper block of `interact` (lines 252-262).  `np.sqrt(d2) < 50` on
nonnegative `d2` is `d2 < 2500`, stated square-free over `ℚ`. -/
def gripStep (st : MockState) (p : String) : MockState :=
  if strIn "close" p || strIn "grasp" p then
    let g := { st with gripper_open := false }
    if (g.arm_x - g.object_x) * (g.arm_x - g.object_x)
        + (g.arm_y - g.object_y) * (g.arm_y - g.object_y) < 2500 then
      { g with object_x := g.arm_x, object_y := g.arm_y }
    else g
  else if strIn "open" p || strIn "release" p then
    { st with gripper_open := true }
  else st

/-- Lighting block of `interact` (lines 265-270). -/
def lightStep (st : MockState) (p : String) : MockState :=
  if strIn "dim" p || strIn "dark" p then { st with lighting := "dim" }
  else if strIn "bright" p || strIn "harsh" p then { st with lighting := "harsh" }
  else if strIn "dramatic" p then { st with lighting := "dramatic" }
  else st

/-- `MockOdysseyClient.interact` (lines 221-270): lowercase the prompt,
then the three blocks in order.  There is no stream-state check and no
raise anywhere in the body: it is a total state transformation. -/
def mockInteract (st : MockState) (prompt : String) : MockState :=
  let p := pyLower prompt
  lightStep (gripStep (moveStep st p) p) p

/-- Modelled from the spec (claim C7 comparison): "category whose name
appears as a case-insensitive substring of the label" — both sides
lowercased.  The code instead lowercases only the label. -/
def ciSubstr (needle hay : String) : Bool :=
  strIn (pyLower needle) (pyLower hay)

/-! ## Helper lemmas -/

theorem pushWindow_length (n : Nat) (xs : List α) (x : α) :
    (pushWindow n xs x).length = min (xs.length + 1) n := by
  unfold pushWindow
  rw [List.length_drop, List.length_append]
  simp only [List.length_singleton]
  omega

theorem pushWindow_getLast (n : Nat) (xs : List α) (x : α) :
    (pushWindow n xs x).getLast? = if n = 0 then none else some x := by
  unfold pushWindow
  rcases Nat.eq_zero_or_pos n with h0 | hpos
  · subst h0
    rw [if_pos rfl, List.drop_eq_nil_of_le (by simp)]
    rfl
  · rw [if_neg (Nat.pos_iff_ne_zero.mp hpos)]
    rw [List.drop_append_eq_append_drop]
    have hk : xs.length + 1 - n - xs.length = 0 := by omega
    rw [hk, List.drop_zero]
    exact List.getLast?_concat _

theorem countTrue_replicate_false (n : Nat) :
    countTrue (List.replicate n false) = 0 := by
  simp [countTrue]

theorem should_adapt_short (d : FailureDetector)
    (h : d.episode_successes.length < d.window_size / 2) :
    should_adapt d = false := by
  unfold should_adapt
  rw [if_pos h]

theorem should_adapt_all_failures (d : FailureDetector) (n : Nat)
    (h1 : d.episode_successes = List.replicate n false)
    (h2 : d.window_size / 2 ≤ n) (h3 : 0 < d.min_success_rate) :
    should_adapt d = true := by
  unfold should_adapt
  rw [h1, List.length_replicate, if_neg (Nat.not_lt.mpr h2), decide_eq_true_eq]
  unfold get_success_rate
  rw [h1]
  cases n with
  | zero => simpa using h3
  | succ k =>
    rw [List.replicate_succ]
    simp only [List.isEmpty_cons, if_false, Bool.false_eq_true]
    rw [show (false :: List.replicate k false) = List.replicate (k + 1) false from rfl]
    rw [countTrue_replicate_false]
    simpa using h3

theorem clampDifficulty_bounds (x : ℚ) :
    1/10 ≤ clampDifficulty x ∧ clampDifficulty x ≤ 1 := by
  unfold clampDifficulty
  exact ⟨le_max_left _ _, max_le (by norm_num) (min_le_left _ _)⟩

theorem eval_difficulty_bounds (st : JudgeState) (reply : Option JsonVal)
    (h1 : 1/10 ≤ st.difficulty) (h2 : st.difficulty ≤ 1) :
    1/10 ≤ (evaluate_performance st reply).1.difficulty ∧
      (evaluate_performance st reply).1.difficulty ≤ 1 := by
  cases reply with
  | none => exact ⟨h1, h2⟩
  | some v =>
    cases v with
    | jnull => exact ⟨h1, h2⟩
    | jbool b => exact ⟨h1, h2⟩
    | jnum q => exact ⟨h1, h2⟩
    | jstr s => exact ⟨h1, h2⟩
    | jarr items => exact ⟨h1, h2⟩
    | jobj fields =>
      cases hA : asAddable (getAdjustRaw fields) with
      | none =>
        simp only [evaluate_performance, hA]
        exact ⟨h1, h2⟩
      | some q =>
        simp only [evaluate_performance, hA]
        exact clampDifficulty_bounds _

theorem onEpisodeEnd_flag (cs : CallbackState) (reward : ℚ) (success : Bool)
    (length : Nat) (perturbation : Option String) :
    (onEpisodeEnd cs reward success length perturbation).2
      = (((recordEpisode cs.detector reward success length
            (some cs.env_conditions)).episode_successes.length
              % cs.adaptation_frequency == 0)
          && should_adapt (recordEpisode cs.detector reward success length
              (some cs.env_conditions))) := rfl

/-! ## Claim theorems -/

/-- Claim C1: whenever the judgment service call fails or its reply does
not parse (the `try` block raises), `evaluate_performance` does not
propagate the fault: it returns a `JudgmentResult` whose `failure_mode`
is `"llm_evaluation_error"`, whose `curriculum_prompt` is `None`, and
whose `difficulty_level` is the pre-call difficulty, and it leaves the
judge state untouched, so subsequent calls behave exactly as if this
call had never happened. -/
theorem judge_fallback_on_failure (st : JudgeState) (reply : Option JsonVal)
    (h : parseFails reply = true) :
    (evaluate_performance st reply).2.failure_mode
        = some (.jstr "llm_evaluation_error") ∧
    (evaluate_performance st reply).2.curriculum_prompt = none ∧
    (evaluate_performance st reply).2.difficulty_level = st.difficulty ∧
    (evaluate_performance st reply).1 = st := by
  cases reply with
  | none => exact ⟨rfl, rfl, rfl, rfl⟩
  | some v =>
    cases v with
    | jnull => exact ⟨rfl, rfl, rfl, rfl⟩
    | jbool b => exact ⟨rfl, rfl, rfl, rfl⟩
    | jnum q => exact ⟨rfl, rfl, rfl, rfl⟩
    | jstr s => exact ⟨rfl, rfl, rfl, rfl⟩
    | jarr items => exact ⟨rfl, rfl, rfl, rfl⟩
    | jobj fields =>
      have hA : asAddable (getAdjustRaw fields) = none := by
        simpa [parseFails, Option.isNone_iff_eq_none] using h
      simp [evaluate_performance, hA, fallbackResult]

/-- Witness for C1: a failed service call on a fresh judge. -/
theorem judge_fallback_on_failure_witness :
    (evaluate_performance judgeInit none).2.failure_mode
        = some (.jstr "llm_evaluation_error") ∧
    (evaluate_performance judgeInit none).2.curriculum_prompt = none ∧
    (evaluate_performance judgeInit none).2.difficulty_level
        = judgeInit.difficulty ∧
    (evaluate_performance judgeInit none).1 = judgeInit :=
  judge_fallback_on_failure judgeInit none rfl

/-- Claim C2: `should_adapt()` is false while the recorded episode count
is below `window_size / 2` (integer division); otherwise it is true iff
the rolling success rate is strictly below `min_success_rate`.  With
`window_size = 10` and the default threshold `0.3`, five all-failure
episodes make it true and four leave it false. -/
theorem should_adapt_threshold :
    (∀ d : FailureDetector,
      d.episode_successes.length < d.window_size / 2 →
        should_adapt d = false) ∧
    (∀ d : FailureDetector,
      d.window_size / 2 ≤ d.episode_successes.length →
        (should_adapt d = true ↔ get_success_rate d < d.min_success_rate)) ∧
    should_adapt (recordFailures 5 (initFailureDetector 10 (3/10) none)) = true ∧
    should_adapt (recordFailures 4 (initFailureDetector 10 (3/10) none)) = false := by
  refine ⟨fun d h => should_adapt_short d h, ?_, ?_, rfl⟩
  · intro d h
    unfold should_adapt
    rw [if_neg (Nat.not_lt.mpr h)]
    exact decide_eq_true_iff
  · exact should_adapt_all_failures _ 5 rfl (by decide)
      (by show (0:ℚ) < 3/10; norm_num)

/-- Witness for C2: a fresh default-window detector has too little data
to adapt. -/
theorem should_adapt_threshold_witness :
    should_adapt (initFailureDetector 10 (3/10) none) = false :=
  should_adapt_threshold.1 (initFailureDetector 10 (3/10) none) (by decide)

/-- Claim C3: the controller's difficulty starts at `0.3`, and after any
sequence of `evaluate_performance` calls — whatever deltas the replies
carry and whether or not parsing succeeds — the stored difficulty lies
in `[0.1, 1.0]`. -/
theorem difficulty_initialized_and_clamped :
    judgeInit.difficulty = 3/10 ∧
    ∀ replies : List (Option JsonVal),
      1/10 ≤ (runJudge judgeInit replies).difficulty ∧
        (runJudge judgeInit replies).difficulty ≤ 1 := by
  refine ⟨rfl, ?_⟩
  have main : ∀ (replies : List (Option JsonVal)) (st : JudgeState),
      1/10 ≤ st.difficulty → st.difficulty ≤ 1 →
      1/10 ≤ (runJudge st replies).difficulty ∧
        (runJudge st replies).difficulty ≤ 1 := by
    intro replies
    induction replies with
    | nil => exact fun st h1 h2 => ⟨h1, h2⟩
    | cons r rest ih =>
      intro st h1 h2
      have hstep := eval_difficulty_bounds st r h1 h2
      exact ih _ hstep.1 hstep.2
  intro replies
  exact main replies judgeInit (by norm_num [judgeInit]) (by norm_num [judgeInit])

/-- Counterexample to claim C4: the adaptation check compares
`len(failure_detector.episode_successes) % adaptation_frequency`, and the
episode window is a `deque(maxlen = window_size)`, so the length
saturates at `window_size`.  With `window_size = 4` and
`adaptation_frequency = 2`, after four all-failure episodes the window is
full; the **fifth** completed episode — whose ordinal 5 is not a multiple
of 2 — still invokes the controller, because the saturated length 4 is. -/
theorem adaptation_fires_off_schedule :
    (onEpisodeEnd (advanceFail^[4] smallCallback) 0 false 1 none).2 = true ∧
    smallCallback.adaptation_frequency = 2 ∧
    5 % 2 = 1 ∧
    (advanceFail^[4] smallCallback).detector.episode_successes.length = 4 := by
  refine ⟨?_, rfl, rfl, rfl⟩
  rw [onEpisodeEnd_flag]
  rw [should_adapt_all_failures _ 4 rfl (by decide)
    (by show (0:ℚ) < 3/10; norm_num)]
  rfl

/-- Claim C4 (amended): after every completed episode the episode is
recorded in the `FailureDetector`; the controller is then invoked exactly
when the **current recorded window length** (which saturates at
`window_size`, so it equals the episode ordinal only until the window
fills) is a multiple of `adaptation_frequency` and `should_adapt()` is
true — once the window is full and `window_size` is a multiple of
`adaptation_frequency`, this fires on every struggling episode, not
every `adaptation_frequency`-th one.  A controller error during the
adaptation step is logged and skipped: the environment conditions are
left unchanged and the loop continues. -/
theorem adaptation_trigger_characterised (cs : CallbackState) (reward : ℚ)
    (success : Bool) (length : Nat) (perturbation : Option String) :
    ((onEpisodeEnd cs reward success length perturbation).1.detector
        = recordEpisode cs.detector reward success length
            (some cs.env_conditions)) ∧
    ((onEpisodeEnd cs reward success length perturbation).2 = true ↔
      ((recordEpisode cs.detector reward success length
            (some cs.env_conditions)).episode_successes.length
          % cs.adaptation_frequency = 0 ∧
        should_adapt (recordEpisode cs.detector reward success length
            (some cs.env_conditions)) = true)) ∧
    (perturbation = none →
      (onEpisodeEnd cs reward success length perturbation).1.env_conditions
        = cs.env_conditions) ∧
    ((recordEpisode cs.detector reward success length
        (some cs.env_conditions)).episode_successes.length
      = min (cs.detector.episode_successes.length + 1)
          cs.detector.window_size) := by
  refine ⟨rfl, ?_, ?_, pushWindow_length _ _ _⟩
  · rw [onEpisodeEnd_flag]
    rw [Bool.and_eq_true]
    rw [beq_iff_eq]
  · intro hp
    subst hp
    unfold onEpisodeEnd
    simp

/-- Witness for C4 (amended): a controller fault on the very first
episode leaves the environment conditions untouched. -/
theorem adaptation_trigger_characterised_witness :
    (onEpisodeEnd smallCallback 0 false 1 none).1.env_conditions
      = smallCallback.env_conditions :=
  (adaptation_trigger_characterised smallCallback 0 false 1 none).2.2.1 rfl

/-- Counterexample to claim C5: there is no delta-acceptance clamp in
`evaluate_performance`.  Starting from difficulty `0.95`, a reply with
raw delta `-0.3` is applied in full: the code yields
`max(0.1, min(1.0, 0.95 - 0.3)) = 0.65`, while the spec's
`clamp(d + clampDelta(x), 0.1, 1.0)` yields `0.85`. -/
theorem raw_delta_applied_unclamped :
    (evaluate_performance { difficulty := 19/20, evaluation_history := [] }
        (some (.jobj [("difficulty_adjustment", .jnum (-(3/10)))]))).1.difficulty
      = 13/20 ∧
    specNewDifficulty (19/20) (-(3/10)) = 17/20 ∧
    ((13/20 : ℚ) ≠ 17/20) := by
  refine ⟨?_, ?_, by norm_num⟩
  · show clampDifficulty (19/20 + -(3/10)) = 13/20
    unfold clampDifficulty
    norm_num
  · unfold specNewDifficulty specDeltaClamped clampDifficulty
    norm_num

/-- Claim C5 (amended): the raw difficulty-adjustment delta read from
the reply is applied **unclamped** (the `[-0.1, 0.1]` range is only
requested of the service in the prompt text): for every starting
difficulty `d` and raw numeric delta `x`, the new difficulty is
`clamp(d + x, 0.1, 1.0)`.  In particular `0.95 + 0.10` yields exactly
`1.0` and `0.15 - 0.10` yields exactly `0.10`, but a raw delta of `-0.3`
from `0.95` yields `0.65`, not a clamped `0.85`. -/
theorem difficulty_update_formula :
    (∀ (st : JudgeState) (x : ℚ),
      (evaluate_performance st
          (some (.jobj [("difficulty_adjustment", .jnum x)]))).1.difficulty
        = clampDifficulty (st.difficulty + x)) ∧
    clampDifficulty (19/20 + 1/10) = 1 ∧
    clampDifficulty (3/20 + -(1/10)) = 1/10 ∧
    clampDifficulty (19/20 + -(3/10)) = 13/20 := by
  refine ⟨fun st x => rfl, ?_, ?_, ?_⟩ <;>
    (unfold clampDifficulty; norm_num)

/-- Counterexample to claim C6: a reply that is valid JSON but is
missing every one of the five expected fields — the empty object — does
**not** take the fallback path: `failure_mode` comes back `None` (not
`"llm_evaluation_error"`), `observation` defaults to `""`, and the
result is appended to the judgment history (the fallback path never
appends). -/
theorem missing_fields_take_normal_path :
    ¬ ((evaluate_performance judgeInit (some (.jobj []))).2.failure_mode
        = some (.jstr "llm_evaluation_error")) ∧
    (evaluate_performance judgeInit (some (.jobj []))).2.failure_mode = none ∧
    (evaluate_performance judgeInit (some (.jobj []))).2.curriculum_prompt
        = none ∧
    (evaluate_performance judgeInit (some (.jobj []))).2.observation
        = some (.jstr "") ∧
    (evaluate_performance judgeInit
        (some (.jobj []))).1.evaluation_history.length = 1 := by
  have hfm : (evaluate_performance judgeInit (some (.jobj []))).2.failure_mode
      = none := rfl
  refine ⟨?_, hfm, rfl, rfl, rfl⟩
  rw [hfm]
  simp

/-- Claim C6 (amended): the reply must decode as JSON (after stripping
markdown fences) to an object whose `difficulty_adjustment` value (if
any) is numeric; exactly in those failure cases does the controller take
the fallback path and leave its state untouched.  A valid JSON object
missing any or all of the five fields takes the **normal** path: text
fields default to `""`, `failure_mode` and `curriculum_prompt` default
to `None`, the delta defaults to `0`, and the result is appended to the
judgment history. -/
theorem fallback_exactly_on_parse_failure :
    (∀ (st : JudgeState) (reply : Option JsonVal), parseFails reply = true →
      (evaluate_performance st reply).1 = st ∧
      (evaluate_performance st reply).2 = fallbackResult st.difficulty) ∧
    (∀ (st : JudgeState) (reply : Option JsonVal), parseFails reply = false →
      (evaluate_performance st reply).1.evaluation_history.length
        = st.evaluation_history.length + 1) ∧
    ((evaluate_performance judgeInit (some (.jobj []))).2.observation
        = some (.jstr "") ∧
      (evaluate_performance judgeInit (some (.jobj []))).2.failure_mode
        = none ∧
      (evaluate_performance judgeInit (some (.jobj []))).2.curriculum_prompt
        = none ∧
      (evaluate_performance judgeInit (some (.jobj []))).2.difficulty_level
        = 3/10) := by
  refine ⟨?_, ?_, rfl, rfl, rfl, ?_⟩
  · intro st reply h
    cases reply with
    | none => exact ⟨rfl, rfl⟩
    | some v =>
      cases v with
      | jnull => exact ⟨rfl, rfl⟩
      | jbool b => exact ⟨rfl, rfl⟩
      | jnum q => exact ⟨rfl, rfl⟩
      | jstr s => exact ⟨rfl, rfl⟩
      | jarr items => exact ⟨rfl, rfl⟩
      | jobj fields =>
        have hA : asAddable (getAdjustRaw fields) = none := by
          simpa [parseFails, Option.isNone_iff_eq_none] using h
        simp [evaluate_performance, hA]
  · intro st reply h
    cases reply with
    | none => simp [parseFails] at h
    | some v =>
      cases v with
      | jnull => simp [parseFails] at h
      | jbool b => simp [parseFails] at h
      | jnum q => simp [parseFails] at h
      | jstr s => simp [parseFails] at h
      | jarr items => simp [parseFails] at h
      | jobj fields =>
        cases hA : asAddable (getAdjustRaw fields) with
        | none => simp [parseFails, hA] at h
        | some q => simp [evaluate_performance, hA]
  · show clampDifficulty (3/10 + 0) = 3/10
    unfold clampDifficulty
    norm_num

/-- Witness for C6 (amended): a failed decode on a fresh judge takes the
fallback path and leaves the state unchanged. -/
theorem fallback_exactly_on_parse_failure_witness :
    (evaluate_performance judgeInit none).1 = judgeInit ∧
    (evaluate_performance judgeInit none).2
      = fallbackResult judgeInit.difficulty :=
  fallback_exactly_on_parse_failure.1 judgeInit none rfl

theorem bumpMatching_apply (cats : List String) (lowered : String)
    (counts : String → Nat) (c : String) :
    bumpMatching cats lowered counts c
      = counts c + (if strIn c lowered then cats.count c else 0) := by
  induction cats generalizing counts with
  | nil => simp [bumpMatching]
  | cons cat rest ih =>
    have hstep : bumpMatching (cat :: rest) lowered counts
        = bumpMatching rest lowered
            (if strIn cat lowered then
              (fun c2 => if c2 == cat then counts c2 + 1 else counts c2)
            else counts) := rfl
    rw [hstep, ih]
    by_cases hsc : strIn cat lowered = true
    · rw [if_pos hsc]
      cases hbc : (c == cat) with
      | true =>
        have hceq : c = cat := eq_of_beq hbc
        subst hceq
        simp only [hbc, if_true, hsc, if_pos]
        rw [List.count_cons]
        simp [hbc]
        omega
      | false =>
        have hne : ¬(cat = c) := by
          intro he
          subst he
          simp at hbc
        simp only [hbc, Bool.false_eq_true, if_false]
        rw [List.count_cons]
        simp [hne]
    · rw [if_neg hsc]
      cases hbc : (c == cat) with
      | true =>
        have hceq : c = cat := eq_of_beq hbc
        subst hceq
        rw [if_neg hsc, if_neg hsc]
      | false =>
        have hne : ¬(cat = c) := by
          intro he
          subst he
          simp at hbc
        rw [List.count_cons]
        simp [hne]

/-- Counterexample to claim C7: the code lowercases only the condition
label and then tests the category string verbatim (`category in
conditions.lower()`), so matching is **not** case-insensitive in the
category: with configured category `"Lighting"` and label
`"dark lighting"` — a case-insensitive match — a failing episode leaves
the `"Lighting"` tally at `0`. -/
theorem category_match_not_case_insensitive :
    ciSubstr "Lighting" "dark lighting" = true ∧
    strIn "Lighting" (pyLower "dark lighting") = false ∧
    (recordEpisode (initFailureDetector 10 (3/10) (some ["Lighting"]))
        0 false 1 (some "dark lighting")).failure_counts "Lighting" = 0 :=
  ⟨by decide, by decide, by decide⟩

/-- Claim C7 (amended): `record_episode` appends to all three rolling
windows (the new value becomes the most recent entry and the length
grows by one up to `window_size`), and exactly when `success` is false
and a non-empty condition label is present, each configured category's
tally grows by the category's multiplicity in the configured list if the
category string occurs **verbatim inside the lowercased label** (a
case-insensitive match only for lowercase category names); no other
tally changes. -/
theorem record_episode_window_and_tally (d : FailureDetector) (reward : ℚ)
    (success : Bool) (length : Nat) (conditions : Option String) :
    ((recordEpisode d reward success length conditions).episode_rewards
        = pushWindow d.window_size d.episode_rewards reward) ∧
    ((recordEpisode d reward success length conditions).episode_successes
        = pushWindow d.window_size d.episode_successes success) ∧
    ((recordEpisode d reward success length conditions).episode_lengths
        = pushWindow d.window_size d.episode_lengths length) ∧
    ((recordEpisode d reward success length conditions).episode_successes.length
        = min (d.episode_successes.length + 1) d.window_size) ∧
    ((recordEpisode d reward success length conditions).episode_successes.getLast?
        = if d.window_size = 0 then none else some success) ∧
    (∀ c : String,
      (recordEpisode d reward success length conditions).failure_counts c
        = d.failure_counts c
          + (if (!success && condTruthy conditions)
                && strIn c (pyLower (conditions.getD "")) then
              d.categories.count c
            else 0)) := by
  refine ⟨rfl, rfl, rfl, pushWindow_length _ _ _, pushWindow_getLast _ _ _, ?_⟩
  intro c
  show (if !success && condTruthy conditions then
          bumpMatching d.categories (pyLower (conditions.getD ""))
            d.failure_counts
        else d.failure_counts) c = _
  by_cases hb : (!success && condTruthy conditions) = true
  · rw [if_pos hb, bumpMatching_apply, hb, Bool.true_and]
  · have hb' : (!success && condTruthy conditions) = false :=
      Bool.eq_false_iff.mpr hb
    rw [if_neg hb, hb', Bool.false_and]
    simp

theorem pushFrames_cons (cap : Nat) (q : List α) (e : Nat) (x : α)
    (rest : List α) :
    pushFrames cap (q, e) (x :: rest)
      = pushFrames cap ((pushFrame cap q x).1, e + (pushFrame cap q x).2)
          rest := rfl

theorem pushFrames_closed_form (cap : Nat) (hcap : 0 < cap) :
    ∀ (frames q : List α) (e : Nat), q.length ≤ cap →
      pushFrames cap (q, e) frames
        = ((q ++ frames).drop (q.length + frames.length - cap),
            e + (q.length + frames.length - cap)) := by
  intro frames
  induction frames with
  | nil =>
    intro q e hq
    show (q, e) = _
    have h0 : q.length + ([] : List α).length - cap = 0 := by
      simp only [List.length_nil]
      omega
    rw [h0, List.append_nil, List.drop_zero, Nat.add_zero]
  | cons x rest ih =>
    intro q e hq
    rw [pushFrames_cons]
    rcases Nat.lt_or_ge q.length cap with hlt | hge
    · have hpf : pushFrame cap q x = (q ++ [x], 0) := by
        unfold pushFrame
        rw [if_pos (Or.inr hlt)]
      rw [hpf]
      rw [ih (q ++ [x]) (e + 0)
        (by simp only [List.length_append, List.length_cons, List.length_nil]
            omega)]
      have hassoc : q ++ [x] ++ rest = q ++ x :: rest := by simp
      have hidx : (q ++ [x]).length + rest.length - cap
          = q.length + (x :: rest).length - cap := by
        simp only [List.length_append, List.length_cons, List.length_nil]
        omega
      rw [hassoc, hidx, Nat.add_zero]
    · have hqe : q.length = cap := Nat.le_antisymm hq hge
      cases q with
      | nil =>
        exfalso
        simp only [List.length_nil] at hqe
        omega
      | cons a t =>
        have htl : t.length + 1 = cap := by simpa using hqe
        have hpf : pushFrame cap (a :: t) x = (t ++ [x], 1) := by
          unfold pushFrame
          rw [if_neg (by rw [List.length_cons]; omega)]
          show (if t.length < cap then (t ++ [x], 1) else (t, 1)) = _
          rw [if_pos (by omega)]
        rw [hpf]
        rw [ih (t ++ [x]) (e + 1)
          (by simp only [List.length_append, List.length_cons, List.length_nil]
              omega)]
        have hidx1 : (t ++ [x]).length + rest.length - cap = rest.length := by
          simp only [List.length_append, List.length_cons, List.length_nil]
          omega
        have hidx2 : (a :: t).length + (x :: rest).length - cap
            = rest.length + 1 := by
          simp only [List.length_cons]
          omega
        rw [hidx1, hidx2]
        have hlist : (a :: t ++ x :: rest).drop (rest.length + 1)
            = (t ++ [x] ++ rest).drop rest.length := by
          rw [List.cons_append, List.drop_succ_cons]
          congr 1
          simp
        rw [← hlist]
        have harith : e + 1 + rest.length = e + (rest.length + 1) := by omega
        rw [harith]

/-- Claim C8: the producer push never blocks: with capacity `cap > 0`,
pushing a frame into a full buffer evicts the single oldest entry before
inserting the newest, so pushing any sequence of `cap + k` frames into
an empty buffer leaves exactly the `cap` most recently pushed frames and
performs exactly `k` evictions. -/
theorem frame_buffer_drop_oldest (cap k : Nat) (frames : List α)
    (hcap : 0 < cap) (hlen : frames.length = cap + k) :
    (pushFrames cap (([] : List α), 0) frames).1 = frames.drop k ∧
    (pushFrames cap (([] : List α), 0) frames).2 = k := by
  rw [pushFrames_closed_form cap hcap frames [] 0 (by simp)]
  have hidx : ([] : List α).length + frames.length - cap = k := by
    simp only [List.length_nil]
    omega
  rw [hidx, List.nil_append]
  exact ⟨rfl, by omega⟩

/-- Witness for C8: capacity 3, five pushed frames, the three newest
survive and two evictions happen. -/
theorem frame_buffer_drop_oldest_witness :
    (pushFrames 3 (([] : List Nat), 0) [1, 2, 3, 4, 5]).1 = [3, 4, 5] ∧
    (pushFrames 3 (([] : List Nat), 0) [1, 2, 3, 4, 5]).2 = 2 :=
  ⟨((frame_buffer_drop_oldest 3 2 [1, 2, 3, 4, 5] (by decide) rfl).1).trans
      (by decide),
    (frame_buffer_drop_oldest 3 2 [1, 2, 3, 4, 5] (by decide) rfl).2⟩

theorem moveStep_stream_id (st : MockState) (p : String) :
    (moveStep st p).current_stream_id = st.current_stream_id := by
  simp only [moveStep, apply_ite MockState.current_stream_id, ite_self]

theorem gripStep_stream_id (st : MockState) (p : String) :
    (gripStep st p).current_stream_id = st.current_stream_id := by
  simp only [gripStep, apply_ite MockState.current_stream_id, ite_self]

theorem lightStep_stream_id (st : MockState) (p : String) :
    (lightStep st p).current_stream_id = st.current_stream_id := by
  simp only [lightStep, apply_ite MockState.current_stream_id, ite_self]

/-- Counterexample to claim C9: the mock transport performs no
stream-state check.  On the freshly constructed mock — whose
`current_stream_id` is `None`, so no stream is in the streaming state —
`interact("move arm left")` raises nothing and is processed normally:
the simulated arm moves from `x = 320` to `x = 300`. -/
theorem mock_interact_ignores_missing_stream :
    mockInit.current_stream_id = none ∧
    (mockInteract mockInit "move arm left").arm_x = 300 ∧
    (mockInteract mockInit "move arm left").current_stream_id = none := by
  refine ⟨rfl, ?_, rfl⟩
  show (320 - 20 : ℚ) = 300
  norm_num

/-- Claim C9 (amended): only the real client guards `interact`: with a
falsy stream id (`None` or `""`) it raises
`RuntimeError("No active stream to interact with")` — the spec's
`NoActiveStreamError` — before sending anything, and with a non-empty
stream id it sends the interact payload; the mock's `interact` never
consults the stream state and processes the instruction regardless. -/
theorem interact_stream_check_real_client_only :
    (∀ p : String, clientInteract none p
        = .raised "No active stream to interact with") ∧
    (∀ p : String, clientInteract (some "") p
        = .raised "No active stream to interact with") ∧
    (∀ (sid p : String), sid ≠ "" →
        clientInteract (some sid) p = .sent "interact" p sid) ∧
    (∀ (st : MockState) (p : String),
        (mockInteract st p).current_stream_id = st.current_stream_id) := by
  refine ⟨fun p => rfl, fun p => rfl, ?_, ?_⟩
  · intro sid p h
    unfold clientInteract
    rw [if_pos]
    · rfl
    · simp [condTruthy, h]
  · intro st p
    show (lightStep (gripStep (moveStep st (pyLower p)) (pyLower p))
        (pyLower p)).current_stream_id = st.current_stream_id
    rw [lightStep_stream_id, gripStep_stream_id, moveStep_stream_id]

/-- Witness for C9 (amended): a live stream id lets the payload through. -/
theorem interact_stream_check_real_client_only_witness :
    clientInteract (some "stream-1") "go left"
      = .sent "interact" "go left" "stream-1" :=
  interact_stream_check_real_client_only.2.2.1 "stream-1" "go left" (by decide)

/-- Counterexample to claim C10: with `window_size = 1` (so
`window_size // 2 = 0`) and the default threshold `0.3`, a freshly
constructed detector with **zero** recorded episodes already returns
`should_adapt() = true`, because the guard `0 < 0` fails and the
guarded success rate `0.0` is below `0.3`. -/
theorem fresh_small_window_detector_adapts :
    should_adapt (initFailureDetector 1 (3/10) none) = true ∧
    (initFailureDetector 1 (3/10) none).episode_successes.length = 0 := by
  refine ⟨?_, rfl⟩
  show decide ((0:ℚ) < 3/10) = true
  rw [decide_eq_true_eq]
  norm_num

/-- Claim C10 (amended): on a detector with zero recorded episodes —
freshly constructed or freshly reset — `get_success_rate()` is exactly
`0.0` (the division is guarded, never performed on an empty window) and
neither call can raise; `should_adapt()` is false whenever
`window_size ≥ 2`, while for `window_size < 2` the insufficient-data
guard is vacuous and `should_adapt()` is true iff `0 < min_success_rate`
(true for the default `0.3`). -/
theorem empty_detector_guarded (ws : Nat) (msr : ℚ)
    (cats : Option (List String)) :
    get_success_rate (initFailureDetector ws msr cats) = 0 ∧
    (2 ≤ ws → should_adapt (initFailureDetector ws msr cats) = false) ∧
    (ws < 2 →
      (should_adapt (initFailureDetector ws msr cats) = true ↔ 0 < msr)) ∧
    (∀ d : FailureDetector,
      get_success_rate (resetStatistics d) = 0 ∧
      (2 ≤ d.window_size → should_adapt (resetStatistics d) = false)) := by
  refine ⟨rfl, ?_, ?_, ?_⟩
  · intro h
    apply should_adapt_short
    show ([] : List Bool).length < ws / 2
    simp only [List.length_nil]
    omega
  · intro h
    unfold should_adapt
    rw [if_neg (by show ¬(([] : List Bool).length < ws / 2); simp; omega)]
    rw [decide_eq_true_eq]
    show (0:ℚ) < msr ↔ 0 < msr
    exact Iff.rfl
  · intro d
    refine ⟨rfl, fun h => ?_⟩
    apply should_adapt_short
    show ([] : List Bool).length < d.window_size / 2
    simp only [List.length_nil]
    omega

/-- Witness for C10 (amended): the default 100-episode window. -/
theorem empty_detector_guarded_witness :
    get_success_rate (initFailureDetector 100 (3/10) none) = 0 ∧
    should_adapt (initFailureDetector 100 (3/10) none) = false :=
  ⟨(empty_detector_guarded 100 (3/10) none).1,
    (empty_detector_guarded 100 (3/10) none).2.1 (by decide)⟩

end AdversaRL
